import Mathlib

/-
Verification of the PocketSDK client library (pocket.go) against its
specification. The Go source is shallowly embedded: pure functions become
Lean functions, the HTTP transport becomes an explicit function parameter
of type `Transport`, and each network operation additionally returns the
list of HTTP requests it issued, so that "no HTTP request is made" is a
statement about that list. Error returns become `Except String`.
-/

set_option autoImplicit false
set_option linter.unusedVariables false
set_option linter.unnecessarySeqFocus false

namespace Pocket

/-! ## Constants (pocket.go lines 16-28) -/

def host : String := "https://getpocket.com/v3"

/-- Format string for the authorization URL, `authorizeURL` in pocket.go. -/
def authorizeURL : String :=
  "https://getpocket.com/auth/authorize?request_token=%s&redirect_uri=%s"

def endpointRequestToken : String := "/oauth/request"
def endpointAuthorize : String := "/oauth/authorize"
def endpointAdd : String := "/add"

def xErrorHeader : String := "X-Error"

/-- Timeout `5 * time.Second`, in nanoseconds (Go `time.Duration` units). -/
def defaultTimeout : Nat := 5 * 1000000000

/-! ## Request/response DTO types (pocket.go lines 30-61) -/

structure requestTokenRequest where
  ConsumerKey : String
  RedirectURI : String
  deriving Repr, DecidableEq

structure accessTokenRequest where
  ConsumerKey : String
  Code : String
  deriving Repr, DecidableEq

structure AuthorizeResponse where
  AccessToken : String
  Username : String
  deriving Repr, DecidableEq

structure addRequest where
  Url : String
  Title : String
  Tags : String
  TweetId : Int
  ConsumerKey : String
  AccessToken : String
  deriving Repr, DecidableEq

structure AddInput where
  URL : String
  Title : String
  Tags : List String
  AccessToken : String
  deriving Repr, DecidableEq

/-! ## Go standard library: strings.Join, strings.Cut -/

/-- Model of Go `strings.Join(elems, sep)`. -/
def stringsJoin (elems : List String) (sep : String) : String :=
  match elems with
  | [] => ""
  | [s] => s
  | s :: rest => s ++ sep ++ stringsJoin rest sep

/-- Cut a character list at the first occurrence of `sep`, returning the
parts before and after it (the separator removed); when `sep` does not
occur, the second part is empty.  Model of Go `strings.Cut` for a
one-character separator, on the byte/char level. -/
def cutChar (sep : Char) : List Char → List Char × List Char
  | [] => ([], [])
  | c :: rest =>
    if c = sep then ([], rest)
    else
      let p := cutChar sep rest
      (c :: p.1, p.2)

/-- Split a character list on a separator character; `splitChar sep []`
is `[[]]`, matching Go's repeated `strings.Cut` loop over `"&"` in
`url.parseQuery` (empty segments are produced and later skipped). -/
def splitChar (sep : Char) : List Char → List (List Char)
  | [] => [[]]
  | c :: rest =>
    if c = sep then [] :: splitChar sep rest
    else
      match splitChar sep rest with
      | [] => [[c]]
      | g :: gs => (c :: g) :: gs

/-! ## Go standard library: net/url query parsing

Model of `url.ParseQuery` / `url.QueryUnescape` restricted to what the
SDK uses.  Characters stand for bytes (all the SDK's claims are about
ASCII data). -/

def ishex (c : Char) : Bool :=
  ('0' ≤ c && c ≤ '9') || ('a' ≤ c && c ≤ 'f') || ('A' ≤ c && c ≤ 'F')

def unhex (c : Char) : Nat :=
  if '0' ≤ c && c ≤ '9' then c.toNat - '0'.toNat
  else if 'a' ≤ c && c ≤ 'f' then c.toNat - 'a'.toNat + 10
  else c.toNat - 'A'.toNat + 10

/-- Error message of Go `url.EscapeError` (the offending text is the at
most three characters starting at the bad `%`, quoted). -/
def escapeError (cs : List Char) : String :=
  "invalid URL escape " ++ "\"" ++ String.mk (cs.take 3) ++ "\""

/-- Percent-decoding in query-component mode: `%xx` becomes the byte
`xx`, `+` becomes a space, a malformed escape is an error.  Model of Go
`url.QueryUnescape` (query mode of `url.unescape`). -/
def unescapeChars : List Char → Except String (List Char)
  | [] => Except.ok []
  | c :: rest =>
    if c = '%' then
      match rest with
      | c1 :: c2 :: rest2 =>
        if ishex c1 && ishex c2 then
          match unescapeChars rest2 with
          | Except.error e => Except.error e
          | Except.ok out => Except.ok (Char.ofNat (16 * unhex c1 + unhex c2) :: out)
        else Except.error (escapeError (c :: rest))
      | _ => Except.error (escapeError (c :: rest))
    else if c = '+' then
      match unescapeChars rest with
      | Except.error e => Except.error e
      | Except.ok out => Except.ok (' ' :: out)
    else
      match unescapeChars rest with
      | Except.error e => Except.error e
      | Except.ok out => Except.ok (c :: out)

/-- Model of Go `url.Values`: an association from field name to the list
of values, in first-appearance order. -/
abbrev Values := List (String × List String)

/-- Append a value under a key, creating the key on first use.  Model of
`m[key] = append(m[key], value)` in `url.parseQuery`. -/
def appendValue : Values → String → String → Values
  | [], k, v => [(k, [v])]
  | (k0, vs0) :: rest, k, v =>
    if k0 = k then (k0, vs0 ++ [v]) :: rest
    else (k0, vs0) :: appendValue rest k v

/-- Model of Go `url.Values.Get`: the first value for the key, or `""`
when the key is absent or has no values. -/
def Values.get : Values → String → String
  | [], _ => ""
  | (k0, vs0) :: rest, k =>
    if k0 = k then
      match vs0 with
      | [] => ""
      | v :: _ => v
    else Values.get rest k

/-- Worker loop of Go `url.parseQuery`: each `&`-separated segment is
checked for `;` (an error that overwrites any previous one), empty
segments are skipped, the segment is cut at the first `=`, both parts
are query-unescaped (an unescape error is kept only if it is the first
error), and the pair is appended to the map.  Parsing continues past
errors and the partial map is returned together with the error. -/
def parseQueryList : Values → Option String → List (List Char) → Values × Option String
  | m, err, [] => (m, err)
  | m, err, seg :: rest =>
    if seg.contains ';' then
      parseQueryList m (some "invalid semicolon separator in query") rest
    else if seg = [] then parseQueryList m err rest
    else
      let kv := cutChar '=' seg
      match unescapeChars kv.1 with
      | Except.error e1 =>
        parseQueryList m (match err with | none => some e1 | some e => some e) rest
      | Except.ok k =>
        match unescapeChars kv.2 with
        | Except.error e1 =>
          parseQueryList m (match err with | none => some e1 | some e => some e) rest
        | Except.ok v =>
          parseQueryList (appendValue m (String.mk k) (String.mk v)) err rest

/-- Model of Go `url.ParseQuery`: the decoded values and the first error
(if any); a partial map is returned even on error. -/
def parseQuery (q : String) : Values × Option String :=
  parseQueryList [] none (splitChar '&' q.toList)

/-! ## Go standard library: fmt.Sprintf with string verbs -/

/-- Substitution of `%s` verbs in a format string, consuming the given
arguments left to right; the format is scanned once, so verbs inside an
argument are not re-expanded.  Model of `fmt.Sprintf` restricted to the
`%s`-only format strings the SDK uses. -/
def sprintfS : List Char → List String → List Char
  | [], _ => []
  | '%' :: 's' :: rest, a :: args => a.toList ++ sprintfS rest args
  | '%' :: 's' :: rest, [] => '%' :: 's' :: sprintfS rest []
  | c :: rest, args => c :: sprintfS rest args

/-- Model of `fmt.Sprintf(format, a, b)` for a format using two `%s` verbs. -/
def sprintf2 (format a b : String) : String :=
  String.mk (sprintfS format.toList [a, b])

/-! ## Go standard library: JSON marshalling (encoding/json)

The three request DTOs contain only strings and an int, so
`json.Marshal` cannot fail on them; it is modelled as a total function
producing the exact wire string (struct-order fields, HTML-unsafe
characters escaped as Go does). -/

def toHexDigit (n : Nat) : Char :=
  if n < 10 then Char.ofNat (48 + n) else Char.ofNat (87 + n)

def jsonEscapeChar (c : Char) : List Char :=
  if c = '"' then ['\\', '"']
  else if c = '\\' then ['\\', '\\']
  else if c = '\n' then ['\\', 'n']
  else if c = '\r' then ['\\', 'r']
  else if c = '\t' then ['\\', 't']
  else if c = '<' ∨ c = '>' ∨ c = '&' ∨ c.toNat < 32 then
    ['\\', 'u', '0', '0', toHexDigit (c.toNat / 16), toHexDigit (c.toNat % 16)]
  else [c]

def jsonQuote (s : String) : String :=
  "\"" ++ String.mk (s.toList.map jsonEscapeChar).flatten ++ "\""

/-- Sum of the three request body types passed to `doHTTP` (Go passes
them as `interface{}`). -/
inductive RequestBody where
  | requestToken (r : requestTokenRequest)
  | accessToken (r : accessTokenRequest)
  | add (r : addRequest)
  deriving Repr, DecidableEq

/-- Model of `json.Marshal` on the three request DTOs. -/
def jsonMarshal : RequestBody → String
  | RequestBody.requestToken r =>
    "\x7b\"consumer_key\":" ++ jsonQuote r.ConsumerKey ++
      ",\"redirectUri\":" ++ jsonQuote r.RedirectURI ++ "\x7d"
  | RequestBody.accessToken r =>
    "\x7b\"consumer_key\":" ++ jsonQuote r.ConsumerKey ++
      ",\"code\":" ++ jsonQuote r.Code ++ "\x7d"
  | RequestBody.add r =>
    "\x7b\"url\":" ++ jsonQuote r.Url ++
      ",\"title\":" ++ jsonQuote r.Title ++
      ",\"tags\":" ++ jsonQuote r.Tags ++
      ",\"tweet_id\":" ++ toString r.TweetId ++
      ",\"consumer_key\":" ++ jsonQuote r.ConsumerKey ++
      ",\"access_token\":" ++ jsonQuote r.AccessToken ++ "\x7d"

/-! ## HTTP model -/

structure HTTPRequest where
  method : String
  url : String
  contentType : String
  body : String
  deriving Repr, DecidableEq

structure HTTPResponse where
  statusCode : Nat
  headers : List (String × String)
  body : String
  deriving Repr, DecidableEq

/-- Model of Go `http.Header.Get`: first value for the (canonical) key,
or `""` when absent. -/
def headerGet : List (String × String) → String → String
  | [], _ => ""
  | (k, v) :: rest, key => if k = key then v else headerGet rest key

/-- The transport underlying `http.Client.Do`: it either fails at the
transport level (DNS, connection, timeout, context cancellation) or
yields a response. -/
abbrev Transport := HTTPRequest → Except String HTTPResponse

/-! ## AddInput methods (pocket.go lines 63-83) -/

/-- Model of `AddInput.validate`: `some msg` is the Go non-nil error. -/
def AddInput.validate (i : AddInput) : Option String :=
  if i.URL = "" then some "required URL values is empty"
  else if i.AccessToken = "" then some "access token is empty"
  else none

/-- Model of `AddInput.generateRequest`. -/
def AddInput.generateRequest (i : AddInput) (consumerKey : String) : addRequest :=
  { Url := i.URL
    Tags := stringsJoin i.Tags ","
    Title := i.Title
    AccessToken := i.AccessToken
    ConsumerKey := consumerKey
    TweetId := 0 }

/-! ## Client (pocket.go lines 85-101) -/

/-- The state the SDK configures on its `http.Client`: only the timeout. -/
structure HTTPClientState where
  timeout : Nat
  deriving Repr, DecidableEq

structure Client where
  client : HTTPClientState
  consumerKey : String
  deriving Repr, DecidableEq

/-- Model of `NewClient`. -/
def NewClient (consumerKey : String) : Except String Client :=
  if consumerKey = "" then Except.error "Consumer key is empty"
  else Except.ok { client := { timeout := defaultTimeout }, consumerKey := consumerKey }

/-! ## doHTTP (pocket.go lines 172-207)

The result is paired with the list of HTTP requests issued through the
transport.  `json.Marshal` is total on the three DTOs and
`http.NewRequestWithContext` cannot fail on the constant method and
URLs, so those two error branches of the Go code are unreachable and
have no counterpart here.  `io.ReadAll` on the modelled response body
cannot fail.  `errors.Join` renders as the messages joined by a newline. -/

def doHTTP (transport : Transport) (endpoint : String) (body : RequestBody) :
    Except String Values × List HTTPRequest :=
  let b := jsonMarshal body
  let req : HTTPRequest :=
    { method := "POST"
      url := host ++ endpoint
      contentType := "application/json; charset=UTF8"
      body := b }
  match transport req with
  | Except.error e => (Except.error (e ++ "\nFailed to send http request..."), [req])
  | Except.ok resp =>
    if resp.statusCode ≠ 200 then
      (Except.error ("API Error : " ++ headerGet resp.headers xErrorHeader), [req])
    else
      match parseQuery resp.body with
      | (_, some e) => (Except.error (e ++ "\nFailed to parse response values"), [req])
      | (values, none) => (Except.ok values, [req])

/-! ## Public operations (pocket.go lines 103-170) -/

/-- Model of `Client.GetRequestToken`. -/
def GetRequestToken (c : Client) (transport : Transport) (redirectUri : String) :
    Except String String × List HTTPRequest :=
  if redirectUri = "" then (Except.error "ReditectUri is empty", [])
  else
    let inp : requestTokenRequest :=
      { ConsumerKey := c.consumerKey, RedirectURI := redirectUri }
    match doHTTP transport endpointRequestToken (RequestBody.requestToken inp) with
    | (Except.error e, reqs) => (Except.error e, reqs)
    | (Except.ok values, reqs) =>
      let requestToken := Values.get values "code"
      if requestToken = "" then
        (Except.error "Empty request token in API response", reqs)
      else (Except.ok requestToken, reqs)

/-- Model of `Client.GetAuthorizationURL` (pure, no transport in scope). -/
def GetAuthorizationURL (c : Client) (requestToken redirectUrl : String) :
    Except String String :=
  if requestToken = "" then Except.error "RequestToken is empty"
  else if redirectUrl = "" then Except.error "RedirectUrl is empty"
  else Except.ok (sprintf2 authorizeURL requestToken redirectUrl)

/-- Model of `Client.Add`. -/
def Add (c : Client) (transport : Transport) (input : AddInput) :
    Except String Unit × List HTTPRequest :=
  match input.validate with
  | some e => (Except.error e, [])
  | none =>
    let inp := input.generateRequest c.consumerKey
    match doHTTP transport endpointAdd (RequestBody.add inp) with
    | (Except.error e, reqs) => (Except.error e, reqs)
    | (Except.ok _, reqs) => (Except.ok (), reqs)

/-- Model of `Client.GetAccessToken`. -/
def GetAccessToken (c : Client) (transport : Transport) (requestToken : String) :
    Except String String × List HTTPRequest :=
  if requestToken = "" then (Except.error "RequestToken is empty", [])
  else
    let inp : accessTokenRequest :=
      { ConsumerKey := c.consumerKey, Code := requestToken }
    match doHTTP transport endpointAuthorize (RequestBody.accessToken inp) with
    | (Except.error e, reqs) => (Except.error e, reqs)
    | (Except.ok values, reqs) =>
      let accessToken := Values.get values "code"
      if accessToken = "" then
        (Except.error "Empty access token in API response", reqs)
      else (Except.ok accessToken, reqs)

/-! ## State-passing views of the methods (for the immutability claim)

The Go methods have pointer receiver `*Client` but their bodies contain
no assignment to a receiver field, so the receiver state a method holds
at return is the state it held at entry; the state-passing embeddings
make that final receiver state an explicit output. -/

def GetRequestTokenSt (c : Client) (transport : Transport) (redirectUri : String) :
    (Except String String × List HTTPRequest) × Client :=
  (GetRequestToken c transport redirectUri, c)

def GetAuthorizationURLSt (c : Client) (requestToken redirectUrl : String) :
    Except String String × Client :=
  (GetAuthorizationURL c requestToken redirectUrl, c)

def AddSt (c : Client) (transport : Transport) (input : AddInput) :
    (Except String Unit × List HTTPRequest) × Client :=
  (Add c transport input, c)

def GetAccessTokenSt (c : Client) (transport : Transport) (requestToken : String) :
    (Except String String × List HTTPRequest) × Client :=
  (GetAccessToken c transport requestToken, c)

/-! ## Concrete fixtures used by witnesses and counterexamples -/

/-- Client fixture matching the one the repository's tests build. -/
def demoClient : Client :=
  { client := { timeout := defaultTimeout }, consumerKey := "key" }

/-- Valid `AddInput` fixture. -/
def demoAddInput : AddInput :=
  { URL := "some_url.com"
    Title := "some_title"
    Tags := []
    AccessToken := "access-to-ken" }

/-- A 200 response whose body is not parseable as a query string (the
escape `%zz` is malformed). -/
def badBodyResp : HTTPResponse :=
  { statusCode := 200, headers := [], body := "%zz" }

/-- A failing response with an `X-Error` header and a non-empty body. -/
def resp400 : HTTPResponse :=
  { statusCode := 400, headers := [("X-Error", "boom")], body := "ignored-body" }

/-! ## Theorems for the claims -/

/-- Claim C5: GetAuthorizationURL is pure (it takes no transport and, by
its type, performs no I/O) and for every non-empty requestToken and
redirectUrl returns exactly the template with the two values
interpolated. -/
theorem getAuthorizationURL_format (c : Client) (rt ru : String)
    (hrt : rt ≠ "") (hru : ru ≠ "") :
    GetAuthorizationURL c rt ru =
      Except.ok ("https://getpocket.com/auth/authorize?request_token=" ++ rt ++
        "&redirect_uri=" ++ ru) := by
  simp [GetAuthorizationURL, hrt, hru]
  apply String.ext
  simp [sprintf2, authorizeURL, sprintfS, String.data_append]

/-- Claim C5 witness: the concrete instance from the spec. -/
theorem getAuthorizationURL_format_witness :
    GetAuthorizationURL demoClient "abc" "https://localhost" =
      Except.ok
        "https://getpocket.com/auth/authorize?request_token=abc&redirect_uri=https://localhost" := by
  rw [getAuthorizationURL_format demoClient "abc" "https://localhost"
    (by decide) (by decide)]
  rfl

/-- Claim C10: GetAuthorizationURL performs no URL-encoding — the
character sequences of requestToken and redirectUrl appear verbatim
(unescaped) in the returned URL between the fixed template pieces. -/
theorem getAuthorizationURL_no_escaping (c : Client) (rt ru : String)
    (hrt : rt ≠ "") (hru : ru ≠ "") :
    GetAuthorizationURL c rt ru =
      Except.ok (String.mk
        ("https://getpocket.com/auth/authorize?request_token=".toList ++
          rt.toList ++ "&redirect_uri=".toList ++ ru.toList)) := by
  simp [GetAuthorizationURL, hrt, hru]
  apply String.ext
  simp [sprintf2, authorizeURL, sprintfS, String.data_append]

/-- Claim C10 witness: inputs containing `&`, `=`, `%` and spaces come
back with those characters unescaped. -/
theorem getAuthorizationURL_no_escaping_witness :
    GetAuthorizationURL demoClient "a&b=c %" "x=y&z %" =
      Except.ok
        "https://getpocket.com/auth/authorize?request_token=a&b=c %&redirect_uri=x=y&z %" := by
  rw [getAuthorizationURL_no_escaping demoClient "a&b=c %" "x=y&z %"
    (by decide) (by decide)]
  rfl

/-- Claim C7: the wire DTO built by Add carries the input URL, Title,
AccessToken and the given consumer key, and its tags field is the input
tags joined with commas (`["a","b"]` gives `"a,b"`, the empty list gives
`""`); moreover the single request Add issues carries exactly the JSON
marshalling of that DTO, embedding the client's consumer key. -/
theorem add_generateRequest_fields :
    (∀ (i : AddInput) (ck : String),
      i.generateRequest ck =
        { Url := i.URL
          Title := i.Title
          Tags := stringsJoin i.Tags ","
          TweetId := 0
          ConsumerKey := ck
          AccessToken := i.AccessToken }) ∧
    stringsJoin ["a", "b"] "," = "a,b" ∧
    stringsJoin [] "," = "" ∧
    (∀ (c : Client) (t : Transport) (i : AddInput),
      i.URL ≠ "" → i.AccessToken ≠ "" →
      (Add c t i).2 =
        [{ method := "POST"
           url := host ++ endpointAdd
           contentType := "application/json; charset=UTF8"
           body := jsonMarshal (RequestBody.add (i.generateRequest c.consumerKey)) }]) := by
  refine ⟨fun i ck => rfl, rfl, rfl, fun c t i hu ha => ?_⟩
  simp only [Add, AddInput.validate, hu, ha, if_neg, if_false, doHTTP]
  cases t { method := "POST", url := host ++ endpointAdd,
            contentType := "application/json; charset=UTF8",
            body := jsonMarshal (RequestBody.add (i.generateRequest c.consumerKey)) } with
  | error e => simp
  | ok resp =>
    by_cases h200 : resp.statusCode = 200 <;>
      simp [h200] <;> (rcases parseQuery resp.body with ⟨vs, e⟩; cases e <;> simp)

/-- Claim C7 witness: the request issued for the demo input. -/
theorem add_generateRequest_fields_witness :
    (Add demoClient (fun _ => Except.ok { statusCode := 200, headers := [], body := "" })
        demoAddInput).2 =
      [{ method := "POST"
         url := host ++ endpointAdd
         contentType := "application/json; charset=UTF8"
         body := jsonMarshal (RequestBody.add (demoAddInput.generateRequest demoClient.consumerKey)) }] :=
  add_generateRequest_fields.2.2.2 demoClient
    (fun _ => Except.ok { statusCode := 200, headers := [], body := "" })
    demoAddInput (by decide) (by decide)

/-- Claim C8: NewClient fails exactly on the empty consumer key (with
the validation message, touching no transport), and otherwise returns a
client holding the 5-second timeout and the given key. -/
theorem newClient_spec (ck : String) :
    ((NewClient ck).isOk ↔ ck ≠ "") ∧
    (ck = "" → NewClient ck = Except.error "Consumer key is empty") ∧
    (ck ≠ "" →
      NewClient ck =
        Except.ok { client := { timeout := defaultTimeout }, consumerKey := ck }) ∧
    defaultTimeout = 5 * 1000000000 := by
  refine ⟨?_, fun h => by simp [NewClient, h], fun h => by simp [NewClient, h], rfl⟩
  by_cases h : ck = "" <;> simp [NewClient, h, Except.isOk, Except.toBool]

/-- Claim C8 witness: construction at a concrete non-empty and at the
empty consumer key. -/
theorem newClient_spec_witness :
    NewClient "key" =
      Except.ok { client := { timeout := defaultTimeout }, consumerKey := "key" } ∧
    NewClient "" = Except.error "Consumer key is empty" :=
  ⟨(newClient_spec "key").2.2.1 (by decide), (newClient_spec "").2.1 rfl⟩

/-- Claim C9: the client state a method holds at return equals the state
at entry for all four public operations, on every input — in particular
the consumer key and the HTTP client configuration are unchanged. -/
theorem client_immutable_after_operations (c : Client) (t : Transport)
    (r rt ru : String) (inp : AddInput) :
    (GetRequestTokenSt c t r).2 = c ∧
    (GetAuthorizationURLSt c rt ru).2 = c ∧
    (AddSt c t inp).2 = c ∧
    (GetAccessTokenSt c t rt).2 = c ∧
    (GetRequestTokenSt c t r).2.consumerKey = c.consumerKey ∧
    (GetRequestTokenSt c t r).2.client = c.client :=
  ⟨rfl, rfl, rfl, rfl, rfl, rfl⟩

/-- Claim C3: for a non-empty redirectUri and a 200 response whose body
parses as a query string, GetRequestToken returns the `code` field when
it is non-empty and an error when it is absent or empty; in particular
the body `code=qwe-rty-123` yields the token `qwe-rty-123` and no error. -/
theorem getRequestToken_code_roundtrip :
    (∀ (c : Client) (resp : HTTPResponse) (r : String), r ≠ "" →
      resp.statusCode = 200 → ∀ vs, parseQuery resp.body = (vs, none) →
      (GetRequestToken c (fun _ => Except.ok resp) r).1 =
        if Values.get vs "code" = "" then
          Except.error "Empty request token in API response"
        else Except.ok (Values.get vs "code")) ∧
    (∀ (c : Client) (r : String), r ≠ "" →
      (GetRequestToken c
          (fun _ => Except.ok { statusCode := 200, headers := [], body := "code=qwe-rty-123" })
          r).1 =
        Except.ok "qwe-rty-123") := by
  have key : ∀ (c : Client) (resp : HTTPResponse) (r : String), r ≠ "" →
      resp.statusCode = 200 → ∀ vs, parseQuery resp.body = (vs, none) →
      (GetRequestToken c (fun _ => Except.ok resp) r).1 =
        if Values.get vs "code" = "" then
          Except.error "Empty request token in API response"
        else Except.ok (Values.get vs "code") := by
    intro c resp r hr h200 vs hp
    simp [GetRequestToken, doHTTP, hr, h200, hp]
    split <;> simp
  refine ⟨key, fun c r hr => ?_⟩
  have hp : parseQuery "code=qwe-rty-123" = ([("code", ["qwe-rty-123"])], none) := by
    decide
  rw [key c { statusCode := 200, headers := [], body := "code=qwe-rty-123" } r hr rfl
    [("code", ["qwe-rty-123"])] hp]
  rfl

/-- Claim C3 witness: the round-trip scenario at concrete inputs. -/
theorem getRequestToken_code_roundtrip_witness :
    (GetRequestToken demoClient
        (fun _ => Except.ok { statusCode := 200, headers := [], body := "code=qwe-rty-123" })
        "https://localhost").1 =
      Except.ok "qwe-rty-123" :=
  getRequestToken_code_roundtrip.2 demoClient "https://localhost" (by decide)

/-- Claim C1: for a non-empty requestToken and a 200 response whose body
parses as a query string, GetAccessToken returns the value of the `code`
field when it is non-empty and fails when it is absent or empty; in
particular a 200 body that sets only `access_token` makes GetAccessToken
fail rather than return the token. -/
theorem getAccessToken_reads_code_field :
    (∀ (c : Client) (resp : HTTPResponse) (rt : String), rt ≠ "" →
      resp.statusCode = 200 → ∀ vs, parseQuery resp.body = (vs, none) →
      (GetAccessToken c (fun _ => Except.ok resp) rt).1 =
        if Values.get vs "code" = "" then
          Except.error "Empty access token in API response"
        else Except.ok (Values.get vs "code")) ∧
    (∀ (c : Client) (rt : String), rt ≠ "" →
      (GetAccessToken c
          (fun _ => Except.ok
            { statusCode := 200, headers := [], body := "access_token=qwe-rty-123" })
          rt).1 =
        Except.error "Empty access token in API response") := by
  have key : ∀ (c : Client) (resp : HTTPResponse) (rt : String), rt ≠ "" →
      resp.statusCode = 200 → ∀ vs, parseQuery resp.body = (vs, none) →
      (GetAccessToken c (fun _ => Except.ok resp) rt).1 =
        if Values.get vs "code" = "" then
          Except.error "Empty access token in API response"
        else Except.ok (Values.get vs "code") := by
    intro c resp rt hrt h200 vs hp
    simp [GetAccessToken, doHTTP, hrt, h200, hp]
    split <;> simp
  refine ⟨key, fun c rt hrt => ?_⟩
  have hp : parseQuery "access_token=qwe-rty-123" =
      ([("access_token", ["qwe-rty-123"])], none) := by decide
  rw [key c { statusCode := 200, headers := [], body := "access_token=qwe-rty-123" } rt hrt
    rfl [("access_token", ["qwe-rty-123"])] hp]
  rfl

/-- Claim C1 witness: the access-token exchange at concrete inputs,
including the `access_token`-only body that fails. -/
theorem getAccessToken_reads_code_field_witness :
    (GetAccessToken demoClient
        (fun _ => Except.ok { statusCode := 200, headers := [], body := "code=tok-1" })
        "12345-qwerty").1 =
      Except.ok "tok-1" ∧
    (GetAccessToken demoClient
        (fun _ => Except.ok
          { statusCode := 200, headers := [], body := "access_token=qwe-rty-123" })
        "12345-qwerty").1 =
      Except.error "Empty access token in API response" := by
  constructor
  · rw [getAccessToken_reads_code_field.1 demoClient
      { statusCode := 200, headers := [], body := "code=tok-1" } "12345-qwerty"
      (by decide) rfl [("code", ["tok-1"])] (by decide)]
    rfl
  · exact getAccessToken_reads_code_field.2 demoClient "12345-qwerty" (by decide)

/-- Claim C2: an empty redirectUri (GetRequestToken), an empty
requestToken (GetAccessToken), or an AddInput with empty URL or
AccessToken (Add) yields a validation error, the list of issued HTTP
requests is empty, and the outcome does not depend on the transport —
the transport is never invoked. -/
theorem validation_errors_issue_no_request (c : Client) (t1 t2 : Transport)
    (inp : AddInput) :
    GetRequestToken c t1 "" = (Except.error "ReditectUri is empty", []) ∧
    GetAccessToken c t1 "" = (Except.error "RequestToken is empty", []) ∧
    GetRequestToken c t1 "" = GetRequestToken c t2 "" ∧
    GetAccessToken c t1 "" = GetAccessToken c t2 "" ∧
    (inp.URL = "" ∨ inp.AccessToken = "" →
      (Add c t1 inp).2 = [] ∧ (∃ e, (Add c t1 inp).1 = Except.error e) ∧
        Add c t1 inp = Add c t2 inp) := by
  refine ⟨by simp [GetRequestToken], by simp [GetAccessToken],
    by simp [GetRequestToken], by simp [GetAccessToken], fun h => ?_⟩
  by_cases hu : inp.URL = ""
  · simp [Add, AddInput.validate, hu]
  · rcases h with h | h
    · exact absurd h hu
    · simp [Add, AddInput.validate, hu, h]

/-- Claim C2 witness: concrete empty inputs against two transports that
would answer differently if they were consulted. -/
theorem validation_errors_issue_no_request_witness :
    GetRequestToken demoClient (fun _ => Except.ok resp400) "" =
      (Except.error "ReditectUri is empty", []) ∧
    GetAccessToken demoClient (fun _ => Except.ok resp400) "" =
      (Except.error "RequestToken is empty", []) ∧
    (Add demoClient (fun _ => Except.ok resp400)
        { URL := "", Title := "", Tags := [], AccessToken := "x" }).2 = [] := by
  have h := validation_errors_issue_no_request demoClient
    (fun _ => Except.ok resp400) (fun _ => Except.error "down")
    { URL := "", Title := "", Tags := [], AccessToken := "x" }
  exact ⟨h.1, h.2.1, (h.2.2.2.2 (Or.inl rfl)).1⟩

/-- Claim C4: for each of the three network operations, a response with
a status other than 200 makes the call fail with a message built from
the `X-Error` response header, whatever the response body holds; a
header list without `X-Error` contributes the empty string. -/
theorem non200_fails_with_xerror (c : Client) (resp : HTTPResponse)
    (h200 : resp.statusCode ≠ 200) (r rt : String) (inp : AddInput)
    (hr : r ≠ "") (hrt : rt ≠ "") (hu : inp.URL ≠ "") (ha : inp.AccessToken ≠ "") :
    (GetRequestToken c (fun _ => Except.ok resp) r).1 =
      Except.error ("API Error : " ++ headerGet resp.headers xErrorHeader) ∧
    (GetAccessToken c (fun _ => Except.ok resp) rt).1 =
      Except.error ("API Error : " ++ headerGet resp.headers xErrorHeader) ∧
    (Add c (fun _ => Except.ok resp) inp).1 =
      Except.error ("API Error : " ++ headerGet resp.headers xErrorHeader) ∧
    (∀ hs : List (String × String), (∀ p ∈ hs, p.1 ≠ xErrorHeader) →
      headerGet hs xErrorHeader = "") := by
  refine ⟨by simp [GetRequestToken, doHTTP, hr, h200],
    by simp [GetAccessToken, doHTTP, hrt, h200],
    by simp [Add, AddInput.validate, doHTTP, hu, ha, h200], ?_⟩
  intro hs
  induction hs with
  | nil => intro _; rfl
  | cons p rest ih =>
    intro hnone
    cases p with
    | mk k v =>
      have hk : k ≠ xErrorHeader := hnone (k, v) (List.mem_cons_self _ _)
      simpa [headerGet, hk] using ih fun q hq => hnone q (List.mem_cons_of_mem _ hq)

/-- Claim C4 witness: a 400 response with header `X-Error: boom` and a
non-empty body fails all three operations with the header-derived
message. -/
theorem non200_fails_with_xerror_witness :
    (GetRequestToken demoClient (fun _ => Except.ok resp400) "https://localhost").1 =
      Except.error "API Error : boom" ∧
    (GetAccessToken demoClient (fun _ => Except.ok resp400) "12345-qwerty").1 =
      Except.error "API Error : boom" ∧
    (Add demoClient (fun _ => Except.ok resp400) demoAddInput).1 =
      Except.error "API Error : boom" := by
  have h := non200_fails_with_xerror demoClient resp400 (by decide)
    "https://localhost" "12345-qwerty" demoAddInput
    (by decide) (by decide) (by decide) (by decide)
  exact ⟨h.1.trans (by rfl), h.2.1.trans (by rfl), h.2.2.1.trans (by rfl)⟩

/-- Claim C6 counterexample: a valid AddInput and a 200 response whose
body `%zz` is not a parseable query string make Add return an error, so
Add does not succeed on every 200 response regardless of body content. -/
theorem add_200_badbody_counterexample :
    demoAddInput.URL ≠ "" ∧ demoAddInput.AccessToken ≠ "" ∧
    badBodyResp.statusCode = 200 ∧
    (Add demoClient (fun _ => Except.ok badBodyResp) demoAddInput).1 =
      Except.error "invalid URL escape \"%zz\"\nFailed to parse response values" :=
  ⟨by decide, by decide, rfl, rfl⟩

/-- Claim C6 amended: for every valid AddInput and 200 response, Add
returns no error exactly when the body parses as a query string; when
the body fails query parsing, Add returns the wrapped parse error even
though the status was 200. -/
theorem add_200_ok_iff_body_parses (c : Client) (inp : AddInput)
    (resp : HTTPResponse) (hu : inp.URL ≠ "") (ha : inp.AccessToken ≠ "")
    (h200 : resp.statusCode = 200) :
    (∀ vs, parseQuery resp.body = (vs, none) →
      (Add c (fun _ => Except.ok resp) inp).1 = Except.ok ()) ∧
    (∀ vs e, parseQuery resp.body = (vs, some e) →
      (Add c (fun _ => Except.ok resp) inp).1 =
        Except.error (e ++ "\nFailed to parse response values")) := by
  constructor
  · intro vs hp
    simp [Add, AddInput.validate, doHTTP, hu, ha, h200, hp]
  · intro vs e hp
    simp [Add, AddInput.validate, doHTTP, hu, ha, h200, hp]

/-- Claim C6 amended witness: a 200 response with an empty (parseable)
body succeeds, one with the unparseable body `%zz` fails. -/
theorem add_200_ok_iff_body_parses_witness :
    (Add demoClient
        (fun _ => Except.ok { statusCode := 200, headers := [], body := "" })
        demoAddInput).1 = Except.ok () ∧
    (Add demoClient (fun _ => Except.ok badBodyResp) demoAddInput).1 =
      Except.error "invalid URL escape \"%zz\"\nFailed to parse response values" := by
  constructor
  · exact (add_200_ok_iff_body_parses demoClient demoAddInput
      { statusCode := 200, headers := [], body := "" }
      (by decide) (by decide) rfl).1 [] (by decide)
  · exact ((add_200_ok_iff_body_parses demoClient demoAddInput badBodyResp
      (by decide) (by decide) rfl).2 [] "invalid URL escape \"%zz\"" (by decide)).trans
      (by rfl)

end Pocket
